import Mathlib

/-!
# LIBGeFP matching engine (`src/gefp_engine.hpp`)

A shallow embedding of the data model and the constructors of `gefp_engine.hpp`,
followed by the operations whose bodies the header only declares.

Conventions of the embedding:

* a C++ `int` is an `Int` (its values lie in `[-2^31, 2^31)`); a `uint` is a `Nat`
  below `2^32`, and an `int`-to-`uint` assignment reduces modulo `2^32`;
* a `double` is the rational number it denotes, a binary64 value
  (`binary64.representable`); a decimal literal such as `0.4` denotes the binary64
  value nearest to that decimal; the binomial cache, whose entries may also be
  infinite, holds elements of the type `binary64`;
* a `std::vector` is a `List`;
* a scalar member that a constructor leaves uninitialised is `none`.
-/

namespace GFP

/-! ## Defaults (the `DEFAULT_*` macros) -/

/-- `#define DEFAULT_BOWDST_START 0` -/
def DEFAULT_BOWDST_START : Int := 0

/-- `#define DEFAULT_BOWDST_INTERVAL 0.2`: the `double` literal `0.2`, which is the
binary64 number `0x3FC999999999999A = 3602879701896397 / 2^54`. -/
def DEFAULT_BOWDST_INTERVAL : ℚ := 3602879701896397 / 18014398509481984

/-- `#define DEFAULT_BOWDST_END 15` -/
def DEFAULT_BOWDST_END : Int := 15

/-- `#define DEFAULT_BOWSUBTYPE 0` -/
def DEFAULT_BOWSUBTYPE : Int := 0

/-- `#define DEFAULT_ALPHASMOOTH 0.4`: the `double` literal `0.4`, which is the
binary64 number `0x3FD999999999999A = 3602879701896397 / 2^53`. -/
def DEFAULT_ALPHASMOOTH : ℚ := 3602879701896397 / 9007199254740992

/-- `#define DEFAULT_BAGDISTANCE 0` -/
def DEFAULT_BAGDISTANCE : Int := 0

/-- `#define DEFAULT_CACHEBINOMIAL 10000` -/
def DEFAULT_CACHEBINOMIAL : Nat := 10000

/-! ## `class scan_bow` -/

/-- A 2D scan as FLIRT words: `class scan_bow`. -/
structure scan_bow where
  w : List Int
  word_weight_unnormalized : List Int
  w_x : List ℚ
  w_y : List ℚ
  word_weight : List ℚ
  tfidf_w : List ℚ
  sum_weight : Option ℚ
  norm_wgv : Option ℚ
  deriving DecidableEq

/-- The constructor `scan_bow(int no)`: `w`, `w_x`, `w_y` become vectors of `no`
value-initialised elements; the other vectors stay empty and the two scalars are
not initialised. A negative `no` converts to a size above `max_size()` and
`std::vector` throws `std::length_error`: `none`. Running out of memory is not
modelled. -/
def scan_bow.new (no : Int) : Option scan_bow :=
  if no < 0 then none
  else some
    { w := List.replicate no.toNat 0
      word_weight_unnormalized := []
      w_x := List.replicate no.toNat 0
      w_y := List.replicate no.toNat 0
      word_weight := []
      tfidf_w := []
      sum_weight := none
      norm_wgv := none }

/-! ## `class tf_idf_db_ordercache`, `class tf_idf_db` -/

/-- Word orders of one word in one scan: `class tf_idf_db_ordercache`. -/
structure tf_idf_db_ordercache where
  pos : List Int
  deriving DecidableEq

/-- TF-IDF statistics of one FLIRT word: `class tf_idf_db`. -/
structure tf_idf_db where
  word_order : List tf_idf_db_ordercache
  doc_id : List Int
  term_count_unnormalized : List Int
  tf_idf_doc_normed : List ℚ
  ntf_idf_doc_normed : List ℚ
  wf_idf_doc_normed : List ℚ
  num_words : List Int
  term_count : List ℚ
  num_doc_containing_the_word : Int
  corpus_size : Int
  idf : Option ℚ
  deriving DecidableEq

/-- The constructor `tf_idf_db()`: the two counters are set to zero, the vectors
are default-constructed (empty), `idf` is not initialised. -/
def tf_idf_db.new : tf_idf_db :=
  { word_order := []
    doc_id := []
    term_count_unnormalized := []
    tf_idf_doc_normed := []
    ntf_idf_doc_normed := []
    wf_idf_doc_normed := []
    num_words := []
    term_count := []
    num_doc_containing_the_word := 0
    corpus_size := 0
    idf := none }

/-! ## binary64 numbers (`double`) -/

/-- The rationals a finite binary64 number can denote: `m * 2^e` with a significand
`|m| < 2^53` and an exponent `-1074 ≤ e ≤ 971`. -/
def binary64.representable (q : ℚ) : Prop :=
  ∃ m e : Int, |m| < 2 ^ 53 ∧ -1074 ≤ e ∧ e ≤ 971 ∧ q = m * (2 : ℚ) ^ e

/-- A binary64 number (`double`): a sign, a significand below `2^53` and an exponent
field `e` standing for `2^(e - 1074)`; or an infinity; or a NaN. -/
inductive binary64 where
  | finite (neg : Bool) (m : Fin (2 ^ 53)) (e : Fin 2046)
  | inf (neg : Bool)
  | nan
  deriving DecidableEq

/-- The rational a binary64 number denotes; `none` for the infinities and NaN. -/
def binary64.toRat? : binary64 → Option ℚ
  | binary64.finite neg m e =>
      some ((if neg then -1 else 1) * (m.val : ℚ) * (2 : ℚ) ^ ((e.val : Int) - 1074))
  | binary64.inf _ => none
  | binary64.nan => none

/-- Whether the natural number `x` is a binary64 value: it is below `2^1024` and the
bits below its 53 leading ones are zero. -/
def nat_representable (x : Nat) : Bool :=
  decide (x < 2 ^ 1024) && (x % 2 ^ (Nat.log2 x - 52) == 0)

/-- Conversion of a natural number to `double`. A number that is a binary64 value is
kept exactly, as every conversion does; what becomes of another number depends on
the rounding in force and is the parameter `rnd`. -/
def to_double (rnd : Nat → binary64) (x : Nat) : binary64 :=
  if nat_representable x then
    binary64.finite false
      ⟨(x / 2 ^ (Nat.log2 x - 52)) % 2 ^ 53, Nat.mod_lt _ (Nat.two_pow_pos 53)⟩
      ⟨(Nat.log2 x - 52 + 1074) % 2046, Nat.mod_lt _ (by decide)⟩
  else rnd x

/-! ## `class gefp_engine`: state and constructor -/

/-- The private members of `class gefp_engine`. A `double` member is the rational it
holds (a binary64 value); the constructor argument `a_vss` ranges over the rationals,
which include every finite `double`. -/
structure gefp_engine where
  laserscan_bow : List scan_bow
  scoreset : List (ℚ × Int)
  tf_idf : List tf_idf_db
  fileoutput_rootname : String
  dictionary_dimensions : Option Int
  start_l : Option Int
  stop_l : Option Int
  max_bow_len : Option Int
  wgv_kernel_size : Int
  bow_type : Int
  bow_subtype : Int
  anglethres : Option ℚ
  bow_dst_start : ℚ
  bow_dst_interval : ℚ
  bow_dst_end : ℚ
  alpha_vss : ℚ
  number_of_scans : Option Nat
  kbest : Nat
  cached_binomial_coeff : List binary64
  mtchgfp_rc_idf_sum : List ℚ
  normgfp_rc_idf_sum : List ℚ
  mtchgfp_min_det_idx : List Int
  mtchgfp_max_det_idx : List Int
  mtchgfp_rc_weak_match : List Int
  normgfp_rc_weak_match : List Int
  mtchgfp_used_doc_idx : List Int

/-- The constructor
`gefp_engine(int krnl, int kbt, int bt = DEFAULT_BAGDISTANCE,
int bstype = DEFAULT_BOWSUBTYPE, double a_vss = DEFAULT_ALPHASMOOTH)`.
`kbest` is a `uint`, so `kbest = kbt` converts modulo `2^32`. -/
def gefp_engine.new (krnl kbt : Int) (bt : Int := DEFAULT_BAGDISTANCE)
    (bstype : Int := DEFAULT_BOWSUBTYPE) (a_vss : ℚ := DEFAULT_ALPHASMOOTH) : gefp_engine :=
  { laserscan_bow := []
    scoreset := []
    tf_idf := []
    fileoutput_rootname := ""
    dictionary_dimensions := none
    start_l := none
    stop_l := none
    max_bow_len := none
    wgv_kernel_size := krnl
    bow_type := bt
    bow_subtype := bstype
    anglethres := none
    bow_dst_start := (DEFAULT_BOWDST_START : Int)
    bow_dst_interval := DEFAULT_BOWDST_INTERVAL
    bow_dst_end := (DEFAULT_BOWDST_END : Int)
    alpha_vss := a_vss
    number_of_scans := none
    kbest := (kbt % 4294967296).toNat
    cached_binomial_coeff := []
    mtchgfp_rc_idf_sum := []
    normgfp_rc_idf_sum := []
    mtchgfp_min_det_idx := []
    mtchgfp_max_det_idx := []
    mtchgfp_rc_weak_match := []
    normgfp_rc_weak_match := []
    mtchgfp_used_doc_idx := [] }

/-! ## Operations the header declares and does not define

`gefp_engine.hpp` declares `isBettermatched`, `insert_wordscan`, `prepare`, `query`,
`matching_bow`, `matching_gfp` and `cache_binomial_coeff`; their bodies are in no
file of the sources. The definitions below follow the specification's text. -/

/-- Modelled from the spec: the body of `isBettermatched`, which the header only
declares. §3 (Score Entry): entries are "ordered by descending score then by
ascending scan index for ties". `isBettermatched x y` holds when `x` ranks strictly
before `y`. -/
def isBettermatched (x y : ℚ × Int) : Bool :=
  decide (y.1 < x.1) || (decide (x.1 = y.1) && decide (x.2 < y.2))

/-- Modelled from the spec: the "re-sorting" step of the Top-K Selector (§4.6), a
sort into the order of `isBettermatched`; the sources hold no selector code. -/
def resort (l : List (ℚ × Int)) : List (ℚ × Int) :=
  l.insertionSort (fun x y => isBettermatched y x = false)

/-- Modelled from the spec: one insertion into the Top-K Selector, which the sources
do not contain. §4.6: "insertion compares against the current minimum retained
score, replacing and re-sorting only when the new score exceeds it (or the set has
fewer than k entries)". -/
def topk_insert (k : Nat) (kept : List (ℚ × Int)) (e : ℚ × Int) : List (ℚ × Int) :=
  if kept.length < k then resort (e :: kept)
  else
    match kept.getLast? with
    | none => kept
    | some m => if m.1 < e.1 then resort (e :: kept.dropLast) else kept

/-- Modelled from the spec: the Top-K Selector (§4.6) run over the scored candidates
of one query, starting from the empty set; the sources hold no selector code. -/
def topk_select (k : Nat) (cands : List (ℚ × Int)) : List (ℚ × Int) :=
  cands.foldl (topk_insert k) []

/-- Modelled from the spec: the error taxonomy of §7; the header declares no error
type (its operations return `void`). -/
inductive EngineError where
  | ShapeMismatch
  | IndexAlreadyBuilt
  | IndexNotBuilt
  deriving DecidableEq

/-- Modelled from the spec: the engine together with the "index built" status on
which §4.1 and §7 make insertion and querying depend; `class gefp_engine` has no
member that records it. -/
structure Engine where
  eng : gefp_engine
  index_built : Bool

/-- Modelled from the spec: the body of `insert_wordscan`, declared in the header
and defined in no source file. §4.1: the three sequences "must have equal length
(else fails with `ShapeMismatch`)"; after `prepare()` insertion "fails with
`IndexAlreadyBuilt`"; otherwise a new Scan Signature is appended. The two checks are
made in the order in which §4.1 and §7 list them. The result pairs the outcome with
the engine after the call. -/
def insert_wordscan (st : Engine) (wordscan : List Int) (xpos ypos : List ℚ) :
    Except EngineError Unit × Engine :=
  if ¬ (wordscan.length = xpos.length ∧ xpos.length = ypos.length) then
    (Except.error EngineError.ShapeMismatch, st)
  else if st.index_built then
    (Except.error EngineError.IndexAlreadyBuilt, st)
  else
    (Except.ok (),
      { st with
        eng :=
          { st.eng with
            laserscan_bow := st.eng.laserscan_bow ++
              [{ w := wordscan
                 word_weight_unnormalized := []
                 w_x := xpos
                 w_y := ypos
                 word_weight := []
                 tfidf_w := []
                 sum_weight := none
                 norm_wgv := none }] } })

/-- Modelled from the spec: what the spec and the header leave open about the
Binomial Cache, whose fill is in no source file: the length of the flat vector
`cached_binomial_coeff` (`size`), the position in it of the entry for `(n, k)`
(`slot`), and the `double` stored for a coefficient that is not a binary64 value
(`rnd`). -/
structure CacheFill where
  size : Nat
  slot : Nat → Nat → Nat
  rnd : Nat → binary64

/-- Modelled from the spec: §3, the table is "a dense lookup mapping (n, k) pairs, n
bounded by a configured ceiling": every pair `0 ≤ k ≤ n ≤ ceiling` has a slot of its
own inside the vector. -/
def CacheFill.dense (F : CacheFill) (ceiling : Nat) : Prop :=
  (∀ n k, k ≤ n → n ≤ ceiling → F.slot n k < F.size) ∧
  (∀ n k n' k', k ≤ n → n ≤ ceiling → k' ≤ n' → n' ≤ ceiling →
    F.slot n k = F.slot n' k' → n = n' ∧ k = k')

/-- The pairs `(n, k)` with `0 ≤ k ≤ n ≤ ceiling`, row by row. -/
def binomial_pairs (ceiling : Nat) : List (Nat × Nat) :=
  (List.range (ceiling + 1)).flatMap (fun n => (List.range (n + 1)).map (fun k => (n, k)))

/-- Modelled from the spec: the body of `cache_binomial_coeff`, declared in the
header and defined in no source file. §3: the table maps "(n, k) pairs, n bounded by
a configured ceiling, to their combinatorial coefficient value". The vector holds, at
the slot of each pair, the coefficient converted to `double` (the header's element
type); a slot of no pair holds `0.0`. -/
def cache_binomial_coeff (F : CacheFill) (ceiling : Nat) : List binary64 :=
  (List.range F.size).map
    (fun i =>
      match (binomial_pairs ceiling).find? (fun p => F.slot p.1 p.2 == i) with
      | some p => to_double F.rnd (Nat.choose p.1 p.2)
      | none => binary64.finite false ⟨0, Nat.two_pow_pos 53⟩ ⟨0, by decide⟩)

/-- Modelled from the spec: a lookup in the Binomial Cache for `(n, k)` with
`0 ≤ k ≤ n ≤ ceiling` (§8); the sources hold no lookup code. -/
def binomial_lookup (F : CacheFill) (cache : List binary64) (ceiling n k : Nat) :
    Option binary64 :=
  if k ≤ n ∧ n ≤ ceiling then cache[F.slot n k]? else none

/-- Modelled from the spec: the body of `prepare`, declared in the header and defined
in no source file. §4.7: it "builds the binomial cache up to the configured ceiling"
(`DEFAULT_CACHEBINOMIAL`) and closes the corpus (§4.1). The TF-IDF index and the
norms it also computes are real-valued (logarithms, square roots); they reach the
scorers through `Scorers` and are not materialised here. -/
def prepare (F : CacheFill) (st : Engine) : Engine :=
  { eng :=
      { st.eng with cached_binomial_coeff := cache_binomial_coeff F DEFAULT_CACHEBINOMIAL }
    index_built := true }

/-- Modelled from the spec: the numeric parts of the two scorers, which the spec
leaves to the implementation and the sources do not contain: the cosine score of
§4.4, the combined score of §4.5, and the outcome of the significance test of §4.5
(`true`: weak match), whose chance model §9 lists as an open question. Each reads
the engine, the query and a scan index. -/
structure Scorers where
  bow_score : gefp_engine → List Int → Nat → ℚ
  gfp_score : gefp_engine → List Int → Nat → ℚ
  weak_match : gefp_engine → List Int → Nat → Bool

/-- Modelled from the spec: §4.4, a candidate is a scan "that shares at least one
word with the query"; the sources hold no matching code. -/
def shares_word (s : scan_bow) (query_v : List Int) : Bool :=
  query_v.any (fun w => s.w.contains w)

/-- Modelled from the spec: the per-scan "used document" flags of one query (the
header's scratch vector `mtchgfp_used_doc_idx`), `1` for the scans that share a word
with the query (§4.4) and `0` for the others; the sources hold no matching code. -/
def used_doc_idx (e : gefp_engine) (query_v : List Int) : List Int :=
  e.laserscan_bow.map (fun s => if shares_word s query_v then 1 else 0)

/-- Modelled from the spec: the per-scan weak-match flags of one query (the header's
scratch vector `mtchgfp_rc_weak_match`): `1` for a candidate the verification pass
of §4.5 flags as a weak match, `0` otherwise; the sources hold no matching code. -/
def weak_match_flags (P : Scorers) (e : gefp_engine) (query_v : List Int) : List Int :=
  (List.range e.laserscan_bow.length).map
    (fun i =>
      if (used_doc_idx e query_v).getD i 0 != 0 && P.weak_match e query_v i then 1 else 0)

/-- Modelled from the spec: the scored candidates of the Bag-of-Words Scorer (§4.4),
in scan order: one score per scan sharing a word with the query, "candidates with
zero overlap are omitted"; the sources hold no matching code. -/
def bow_candidates (P : Scorers) (e : gefp_engine) (query_v : List Int) : List (ℚ × Int) :=
  ((List.range e.laserscan_bow.length).filter
      (fun i => (used_doc_idx e query_v).getD i 0 != 0)).map
    (fun i => (P.bow_score e query_v i, (i : Int)))

/-- Modelled from the spec: the scored candidates of the Geometric Phrase Scorer
(§4.5), in scan order: the candidates of §4.4 except those flagged as a weak match,
which are "excluded from scored output"; the sources hold no matching code. -/
def gfp_candidates (P : Scorers) (e : gefp_engine) (query_v : List Int) : List (ℚ × Int) :=
  ((List.range e.laserscan_bow.length).filter
      (fun i => (used_doc_idx e query_v).getD i 0 != 0 &&
        (weak_match_flags P e query_v).getD i 1 == 0)).map
    (fun i => (P.gfp_score e query_v i, (i : Int)))

/-- Modelled from the spec: the body of `matching_bow`, which the header declares
and no source file defines: the candidates of §4.4 go through the Top-K Selector
into `scoreset`. -/
def matching_bow (P : Scorers) (e : gefp_engine) (query_v : List Int) : gefp_engine :=
  { e with scoreset := topk_select e.kbest (bow_candidates P e query_v) }

/-- Modelled from the spec: the body of `matching_gfp`, which the header declares
and no source file defines: the scratch flags of the query are written and the
candidates of §4.5 go through the Top-K Selector into `scoreset`. -/
def matching_gfp (P : Scorers) (e : gefp_engine) (query_v : List Int) : gefp_engine :=
  { e with
    mtchgfp_used_doc_idx := used_doc_idx e query_v
    mtchgfp_rc_weak_match := weak_match_flags P e query_v
    scoreset := topk_select e.kbest (gfp_candidates P e query_v) }

/-- Modelled from the spec: the scored candidates a query in mode `dtype` hands to
the Top-K Selector (`1`: bag-of-words, `2`: geometrical FLIRT phrases, as the header
documents `dtype`); the sources hold no query code. -/
def scored_candidates (P : Scorers) (e : gefp_engine) (dtype : Int) (query_v : List Int) :
    List (ℚ × Int) :=
  if dtype = 1 then bow_candidates P e query_v
  else if dtype = 2 then gfp_candidates P e query_v
  else []

/-- Modelled from the spec: the body of `query`, declared in the header and defined
in no source file. §7: a query before `prepare()` is rejected with `IndexNotBuilt`;
§4.7: "mode selects 4.4 or 4.5; returns the Top-K result". `scoreoutput` receives
the engine's `scoreset`; a `dtype` other than `1` and `2` runs no scorer. -/
def query (P : Scorers) (st : Engine) (dtype : Int) (query_v : List Int) :
    Except EngineError (List (ℚ × Int)) × Engine :=
  if st.index_built then
    let e :=
      if dtype = 1 then matching_bow P st.eng query_v
      else if dtype = 2 then matching_gfp P st.eng query_v
      else st.eng
    (Except.ok e.scoreset, { st with eng := e })
  else (Except.error EngineError.IndexNotBuilt, st)

/-! ## The bag-of-words score over the reals

The TF-IDF weights, the norms and the cosine score of §4.2 and §4.4 involve
logarithms and square roots; they are written over `ℝ`. Their code (`build_tfidf`,
`norm_gfp`, `matching_bow`) is in no source file. -/

/-- Modelled from the spec: §3, Term Statistics, the "number of distinct scans
containing" the word; `build_tfidf` is in no source file. -/
def num_doc_containing (e : gefp_engine) (w : Int) : Nat :=
  e.laserscan_bow.countP (fun s => s.w.contains w)

/-- Modelled from the spec: §4.2, "inverse-document-frequency =
log(corpus_size / documents_containing_word)"; `build_tfidf` is in no source file. A
word in every scan gets `log 1 = 0`, and so does a word in no scan (§4.4: "unseen
words contribute zero weight"). -/
noncomputable def idf (e : gefp_engine) (w : Int) : ℝ :=
  Real.log ((e.laserscan_bow.length : ℝ) / (num_doc_containing e w : ℝ))

/-- Modelled from the spec: §4.2, the weight of word `w` in the word sequence `ws`:
the term-frequency factor `tf count length` of the active variant times the
inverse document frequency. The factor is a parameter: the spec gives it for the
standard variant (`tf_standard`) and the sublinear variant and gives no formula for
the length-smoothed one. §4.4 and §8 ("cosine self-similarity") weight a query like a
scan. `build_tfidf` is in no source file. -/
noncomputable def word_weight (tf : Nat → Nat → ℝ) (e : gefp_engine) (ws : List Int)
    (w : Int) : ℝ :=
  tf (ws.count w) ws.length * idf e w

/-- A cache layout for the examples: row `n` at offset `n * (ceiling + 1)`, and an
infinity for every coefficient that is not a binary64 value. -/
def row_major_fill (ceiling : Nat) : CacheFill :=
  { size := (ceiling + 1) * (ceiling + 1)
    slot := fun n k => n * (ceiling + 1) + k
    rnd := fun _ => binary64.inf false }

/-- An engine with kernel size 4 and k-best size 2 holding the two scans of the
spec's example (§8), `[5, 12, 5, 30]` and `[12, 5, 30, 5]`, after `prepare()`. -/
def example_engine : Engine :=
  prepare (row_major_fill DEFAULT_CACHEBINOMIAL)
    (insert_wordscan
      (insert_wordscan ⟨gefp_engine.new 4 2, false⟩ [5, 12, 5, 30] [0, 1, 2, 3] [0, 0, 0, 0]).2
      [12, 5, 30, 5] [0, 1, 2, 3] [1, 1, 1, 1]).2

/-- Scorers for the examples: scan `i` scores `i + 1` in both modes, and the
verification pass flags scan 0 as a weak match. -/
def example_scorers : Scorers :=
  { bow_score := fun _ _ i => (i : ℚ) + 1
    gfp_score := fun _ _ i => (i : ℚ) + 1
    weak_match := fun _ _ i => i == 0 }

theorem isBettermatched_iff (x y : ℚ × Int) :
    isBettermatched x y = true ↔ y.1 < x.1 ∨ (x.1 = y.1 ∧ x.2 < y.2) := by
  simp [isBettermatched]

theorem isBettermatched_false_iff (x y : ℚ × Int) :
    isBettermatched y x = false ↔ y.1 < x.1 ∨ (y.1 = x.1 ∧ x.2 ≤ y.2) := by
  rw [← Bool.not_eq_true, isBettermatched_iff]
  constructor
  · intro h
    rcases lt_trichotomy y.1 x.1 with h1 | h1 | h1
    · exact Or.inl h1
    · refine Or.inr ⟨h1, ?_⟩
      by_contra h2
      exact h (Or.inr ⟨h1, lt_of_not_le h2⟩)
    · exact absurd (Or.inl h1) h
  · rintro (h | ⟨h1, h2⟩) (h3 | ⟨h3, h4⟩)
    · exact lt_asymm h h3
    · exact absurd h3 (ne_of_lt h)
    · exact absurd h1.symm (ne_of_lt h3)
    · exact absurd h4 (not_lt.mpr h2)

theorem notWorse_total : IsTotal (ℚ × Int) (fun x y => isBettermatched y x = false) where
  total x y := by
    simp only [isBettermatched_false_iff]
    rcases lt_trichotomy x.1 y.1 with h | h | h
    · exact Or.inr (Or.inl h)
    · rcases le_total x.2 y.2 with h2 | h2
      · exact Or.inl (Or.inr ⟨h.symm, h2⟩)
      · exact Or.inr (Or.inr ⟨h, h2⟩)
    · exact Or.inl (Or.inl h)

theorem notWorse_trans : IsTrans (ℚ × Int) (fun x y => isBettermatched y x = false) where
  trans x y z := by
    simp only [isBettermatched_false_iff]
    rintro (h | ⟨h1, h2⟩) (h' | ⟨h1', h2'⟩)
    · exact Or.inl (lt_trans h' h)
    · exact Or.inl (h1' ▸ h)
    · exact Or.inl (h1 ▸ h')
    · exact Or.inr ⟨h1'.trans h1, le_trans h2 h2'⟩

theorem resort_sorted (l : List (ℚ × Int)) :
    (resort l).Pairwise (fun x y => isBettermatched y x = false) :=
  haveI := notWorse_total
  haveI := notWorse_trans
  List.sorted_insertionSort _ l

theorem resort_perm (l : List (ℚ × Int)) : (resort l).Perm l :=
  List.perm_insertionSort _ l

theorem topk_insert_length (k : Nat) (kept : List (ℚ × Int)) (e : ℚ × Int)
    (h : kept.length ≤ k) :
    (topk_insert k kept e).length = min k (kept.length + 1) := by
  unfold topk_insert
  split_ifs with h1
  · rw [(resort_perm _).length_eq, List.length_cons]
    omega
  · have hk : kept.length = k := by omega
    cases hl : kept.getLast? with
    | none => simp only; omega
    | some m =>
      simp only
      split_ifs
      · rw [(resort_perm _).length_eq, List.length_cons, List.length_dropLast]
        have : kept ≠ [] := by
          intro hnil
          simp [hnil] at hl
        have := List.length_pos.mpr this
        omega
      · omega

theorem topk_insert_sorted (k : Nat) (kept : List (ℚ × Int)) (e : ℚ × Int)
    (h : kept.Pairwise (fun x y => isBettermatched y x = false)) :
    (topk_insert k kept e).Pairwise (fun x y => isBettermatched y x = false) := by
  unfold topk_insert
  split_ifs
  · exact resort_sorted _
  · cases kept.getLast? with
    | none => exact h
    | some m =>
      simp only
      split_ifs
      · exact resort_sorted _
      · exact h

theorem topk_insert_subperm (k : Nat) (kept : List (ℚ × Int)) (e : ℚ × Int) :
    List.Subperm (topk_insert k kept e) (e :: kept) := by
  unfold topk_insert
  split_ifs
  · exact (resort_perm _).subperm
  · cases kept.getLast? with
    | none => exact List.Subperm.cons_self
    | some m =>
      simp only
      split_ifs
      · exact (resort_perm _).subperm.trans
          ((List.subperm_cons e).mpr (List.dropLast_sublist kept).subperm)
      · exact List.Subperm.cons_self

theorem topk_foldl_length (k : Nat) (cands kept : List (ℚ × Int)) (h : kept.length ≤ k) :
    (cands.foldl (topk_insert k) kept).length = min k (kept.length + cands.length) := by
  induction cands generalizing kept with
  | nil => simp; omega
  | cons e cs ih =>
    rw [List.foldl_cons, ih _ (by rw [topk_insert_length k kept e h]; omega),
      topk_insert_length k kept e h, List.length_cons]
    omega

theorem topk_foldl_sorted (k : Nat) (cands kept : List (ℚ × Int))
    (h : kept.Pairwise (fun x y => isBettermatched y x = false)) :
    (cands.foldl (topk_insert k) kept).Pairwise (fun x y => isBettermatched y x = false) := by
  induction cands generalizing kept with
  | nil => exact h
  | cons e cs ih => exact ih _ (topk_insert_sorted k kept e h)

theorem topk_foldl_subperm (k : Nat) (cands kept : List (ℚ × Int)) :
    List.Subperm (cands.foldl (topk_insert k) kept) (kept ++ cands) := by
  induction cands generalizing kept with
  | nil => simpa using List.Subperm.refl kept
  | cons e cs ih =>
    refine (ih _).trans ?_
    refine ((List.subperm_append_right cs).mpr (topk_insert_subperm k kept e)).trans ?_
    exact (List.perm_middle.symm).subperm

theorem topk_select_length_eq (k : Nat) (cands : List (ℚ × Int)) :
    (topk_select k cands).length = min k cands.length := by
  simpa [topk_select] using topk_foldl_length k cands [] (Nat.zero_le k)

theorem topk_select_subperm (k : Nat) (cands : List (ℚ × Int)) :
    List.Subperm (topk_select k cands) cands := by
  simpa [topk_select] using topk_foldl_subperm k cands []

theorem topk_select_ranked (k : Nat) (cands : List (ℚ × Int))
    (hnd : (cands.map Prod.snd).Nodup) :
    (topk_select k cands).Pairwise (fun x y => isBettermatched x y = true) := by
  have hs : (topk_select k cands).Pairwise (fun x y => isBettermatched y x = false) :=
    topk_foldl_sorted k cands [] List.Pairwise.nil
  obtain ⟨l, hl, hsl⟩ := topk_select_subperm k cands
  have hnd2 : ((topk_select k cands).map Prod.snd).Nodup :=
    ((hl.map Prod.snd).nodup_iff).mp ((hsl.map Prod.snd).nodup hnd)
  have hd : (topk_select k cands).Pairwise (fun x y => x.2 ≠ y.2) :=
    (List.pairwise_map).mp hnd2
  refine (hs.and hd).imp ?_
  rintro x y ⟨h1, h2⟩
  rw [isBettermatched_false_iff] at h1
  rw [isBettermatched_iff]
  rcases h1 with h1 | ⟨h1, h3⟩
  · exact Or.inl h1
  · exact Or.inr ⟨h1.symm, lt_of_le_of_ne h3 h2⟩

theorem indexed_candidates_nodup (p : Nat → Bool) (f : Nat → ℚ) (n : Nat) :
    ((((List.range n).filter p).map (fun i => (f i, (i : Int)))).map Prod.snd).Nodup := by
  rw [List.map_map]
  exact ((List.nodup_range n).filter p).map (fun a b h => by simpa using h)

theorem scored_candidates_nodup (P : Scorers) (e : gefp_engine) (dtype : Int)
    (query_v : List Int) : ((scored_candidates P e dtype query_v).map Prod.snd).Nodup := by
  unfold scored_candidates
  split_ifs
  · exact indexed_candidates_nodup _ _ _
  · exact indexed_candidates_nodup _ _ _
  · exact List.nodup_nil

theorem query_scoreset (P : Scorers) (st : Engine) (dtype : Int) (query_v : List Int)
    (hb : st.index_built = true) (hd : dtype = 1 ∨ dtype = 2) :
    (query P st dtype query_v).1 = Except.ok (query P st dtype query_v).2.eng.scoreset ∧
    (query P st dtype query_v).2.eng.scoreset
      = topk_select st.eng.kbest (scored_candidates P st.eng dtype query_v) := by
  rcases hd with hd | hd <;> subst hd <;>
    simp [query, hb, scored_candidates, matching_bow, matching_gfp]

theorem example_bow_scoreset :
    (query example_scorers example_engine 1 [5, 12, 30]).2.eng.scoreset = [(2, 1), (1, 0)] := by
  simp [query, example_engine, prepare, insert_wordscan, matching_bow, bow_candidates,
    used_doc_idx, shares_word, example_scorers, topk_select, topk_insert,
    resort, isBettermatched, gefp_engine.new, List.range, List.range.loop]
  norm_num

theorem example_gfp_scoreset :
    (query example_scorers example_engine 2 [5, 12, 30]).2.eng.scoreset = [(2, 1)] := by
  simp [query, example_engine, prepare, insert_wordscan, matching_gfp, gfp_candidates,
    weak_match_flags, used_doc_idx, shares_word, example_scorers, topk_select, topk_insert,
    resort, isBettermatched, gefp_engine.new, List.range, List.range.loop]
  norm_num

/-! ## Lemmas: the best candidate heads the Top-K result -/

theorem representable_far (E : Int) (x δ : ℚ)
    (hlow : (2 : ℚ) ^ 53 * 2 ^ (E - 1) + δ ≤ x)
    (hgrid : ∀ j : Int, δ ≤ |(j : ℚ) * 2 ^ E - x|) (r : ℚ)
    (hr : binary64.representable r) : δ ≤ |r - x| := by
  obtain ⟨m, e, hm, -, -, rfl⟩ := hr
  have hmq : |(m : ℚ)| < 2 ^ 53 := by
    have : ((|m| : Int) : ℚ) < ((2 ^ 53 : Int) : ℚ) := by exact_mod_cast hm
    simpa using this
  rcases lt_or_le e E with he | he
  · have h1 : (2 : ℚ) ^ e ≤ 2 ^ (E - 1) := zpow_le_zpow_right₀ (by norm_num) (by omega)
    have h2 : (0 : ℚ) < 2 ^ e := zpow_pos (by norm_num) e
    have h3 : |(m : ℚ) * 2 ^ e| ≤ 2 ^ 53 * 2 ^ (E - 1) := by
      rw [abs_mul, abs_of_pos h2]
      exact mul_le_mul hmq.le h1 h2.le (by positivity)
    have h4 : (m : ℚ) * 2 ^ e ≤ 2 ^ 53 * 2 ^ (E - 1) := le_trans (le_abs_self _) h3
    rw [abs_sub_comm]
    exact le_trans (by linarith) (le_abs_self _)
  · obtain ⟨t, ht⟩ := Int.eq_ofNat_of_zero_le (sub_nonneg.mpr he)
    have he' : e = E + t := by omega
    have := hgrid (m * 2 ^ t)
    rw [he', zpow_add₀ (by norm_num : (2 : ℚ) ≠ 0), zpow_natCast]
    push_cast at this
    rw [show (m : ℚ) * (2 ^ E * 2 ^ t) = (m : ℚ) * 2 ^ t * 2 ^ E by ring]
    exact this

theorem grid_two_fifths (j : Int) :
    (1 : ℚ) / (5 * 2 ^ 53) ≤ |(j : ℚ) * 2 ^ (-54 : Int) - 2 / 5| := by
  have h1 : (2 : Int) ≤ |5 * j - 36028797018963968| := by
    rw [le_abs]
    omega
  have h2 : (j : ℚ) * 2 ^ (-54 : Int) - 2 / 5
      = ((5 * j - 36028797018963968 : Int) : ℚ) / (5 * 2 ^ 54) := by
    rw [zpow_neg]
    push_cast
    field_simp
    ring
  rw [h2, abs_div, abs_of_pos (by positivity : (0 : ℚ) < 5 * 2 ^ 54), ← Int.cast_abs]
  have h3 : (2 : ℚ) ≤ ((|5 * j - 36028797018963968| : Int) : ℚ) := by exact_mod_cast h1
  rw [div_le_div_iff₀ (by positivity) (by positivity)]
  nlinarith

theorem grid_one_fifth (j : Int) :
    (1 : ℚ) / (5 * 2 ^ 54) ≤ |(j : ℚ) * 2 ^ (-55 : Int) - 1 / 5| := by
  have h1 : (2 : Int) ≤ |5 * j - 36028797018963968| := by
    rw [le_abs]
    omega
  have h2 : (j : ℚ) * 2 ^ (-55 : Int) - 1 / 5
      = ((5 * j - 36028797018963968 : Int) : ℚ) / (5 * 2 ^ 55) := by
    rw [zpow_neg]
    push_cast
    field_simp
    ring
  rw [h2, abs_div, abs_of_pos (by positivity : (0 : ℚ) < 5 * 2 ^ 55), ← Int.cast_abs]
  have h3 : (2 : ℚ) ≤ ((|5 * j - 36028797018963968| : Int) : ℚ) := by exact_mod_cast h1
  rw [div_le_div_iff₀ (by positivity) (by positivity)]
  nlinarith

theorem DEFAULT_ALPHASMOOTH_representable : binary64.representable DEFAULT_ALPHASMOOTH :=
  ⟨3602879701896397, -53, by norm_num, by norm_num, by norm_num, by
    rw [DEFAULT_ALPHASMOOTH, zpow_neg]; norm_num⟩

theorem DEFAULT_ALPHASMOOTH_error :
    |DEFAULT_ALPHASMOOTH - 2 / 5| = 1 / (5 * 2 ^ 53) := by
  rw [DEFAULT_ALPHASMOOTH]
  norm_num [abs_of_pos]

theorem DEFAULT_ALPHASMOOTH_nearest (r : ℚ) (hr : binary64.representable r) :
    |DEFAULT_ALPHASMOOTH - 2 / 5| ≤ |r - 2 / 5| := by
  rw [DEFAULT_ALPHASMOOTH_error]
  exact representable_far (-54) (2 / 5) (1 / (5 * 2 ^ 53))
    (by rw [show (-54 - 1 : Int) = -55 by norm_num, zpow_neg]; norm_num) grid_two_fifths r hr

theorem DEFAULT_BOWDST_INTERVAL_representable :
    binary64.representable DEFAULT_BOWDST_INTERVAL :=
  ⟨3602879701896397, -54, by norm_num, by norm_num, by norm_num, by
    rw [DEFAULT_BOWDST_INTERVAL, zpow_neg]; norm_num⟩

theorem DEFAULT_BOWDST_INTERVAL_error :
    |DEFAULT_BOWDST_INTERVAL - 1 / 5| = 1 / (5 * 2 ^ 54) := by
  rw [DEFAULT_BOWDST_INTERVAL]
  norm_num [abs_of_pos]

theorem DEFAULT_BOWDST_INTERVAL_nearest (r : ℚ) (hr : binary64.representable r) :
    |DEFAULT_BOWDST_INTERVAL - 1 / 5| ≤ |r - 1 / 5| := by
  rw [DEFAULT_BOWDST_INTERVAL_error]
  exact representable_far (-55) (1 / 5) (1 / (5 * 2 ^ 54))
    (by rw [show (-55 - 1 : Int) = -56 by norm_num, zpow_neg]; norm_num) grid_one_fifth r hr

theorem toRat_representable (d : binary64) (q : ℚ) (h : d.toRat? = some q) :
    binary64.representable q := by
  cases d with
  | finite neg m e =>
    simp only [binary64.toRat?, Option.some.injEq] at h
    have hm : ((m.val : Int)) < 2 ^ 53 := by exact_mod_cast m.isLt
    have he : (e.val : Int) < 2046 := by exact_mod_cast e.isLt
    refine ⟨(if neg then -1 else 1) * (m.val : Int), (e.val : Int) - 1074, ?_, by omega,
      by omega, ?_⟩
    · cases neg <;> simp [abs_of_nonneg]
    · rw [← h]
      cases neg <;> simp
  | inf neg => simp [binary64.toRat?] at h
  | nan => simp [binary64.toRat?] at h

theorem not_representable_of_large (n : Nat) (h : 2 ^ 1024 ≤ n) :
    ¬ binary64.representable (n : ℚ) := by
  rintro ⟨m, e, hm, -, he, hq⟩
  have h1 : ((m : ℚ)) < 2 ^ 53 := by
    have : m < 2 ^ 53 := lt_of_le_of_lt (le_abs_self m) hm
    exact_mod_cast this
  have h2 : (2 : ℚ) ^ e ≤ 2 ^ (971 : Int) := zpow_le_zpow_right₀ (by norm_num) he
  have h3 : (0 : ℚ) < 2 ^ e := zpow_pos (by norm_num) e
  have h4 : (n : ℚ) < 2 ^ 53 * 2 ^ (971 : Int) := by
    rw [hq]
    calc (m : ℚ) * 2 ^ e < 2 ^ 53 * 2 ^ e := by
          exact mul_lt_mul_of_pos_right h1 h3
      _ ≤ 2 ^ 53 * 2 ^ (971 : Int) := by
          exact mul_le_mul_of_nonneg_left h2 (by positivity)
  have h5 : ((2 : ℚ) ^ 53 * 2 ^ (971 : Int)) = ((2 ^ 1024 : Nat) : ℚ) := by
    norm_num
  rw [h5] at h4
  have : n < 2 ^ 1024 := by exact_mod_cast h4
  omega

theorem choose_10000_5000_large : 2 ^ 1024 ≤ Nat.choose 10000 5000 := by
  have h := Nat.four_pow_lt_mul_centralBinom 5000 (by norm_num)
  rw [Nat.centralBinom_eq_two_mul_choose] at h
  have h2 : 5000 * 2 ^ 1024 ≤ 4 ^ 5000 := by
    have : (4:Nat) ^ 5000 = 2 ^ 13 * 2 ^ 1024 * 2 ^ 8963 := by
      rw [show (4:Nat) = 2 ^ 2 by norm_num, ← pow_mul, ← pow_add, ← pow_add]
    rw [this]
    calc 5000 * 2 ^ 1024 ≤ 2 ^ 13 * 2 ^ 1024 := Nat.mul_le_mul_right _ (by norm_num)
      _ ≤ 2 ^ 13 * 2 ^ 1024 * 2 ^ 8963 := Nat.le_mul_of_pos_right _ (by positivity)
  have h3 : 5000 * 2 ^ 1024 < 5000 * Nat.choose (2 * 5000) 5000 := lt_of_le_of_lt h2 h
  have h4 := Nat.lt_of_mul_lt_mul_left h3
  exact le_of_lt h4

theorem significand_lt (x : Nat) : x / 2 ^ (Nat.log2 x - 52) < 2 ^ 53 := by
  rw [Nat.div_lt_iff_lt_mul (by positivity)]
  calc x < 2 ^ (Nat.log2 x + 1) := Nat.lt_log2_self
    _ ≤ 2 ^ (53 + (Nat.log2 x - 52)) := Nat.pow_le_pow_right (by decide) (by omega)
    _ = 2 ^ 53 * 2 ^ (Nat.log2 x - 52) := pow_add 2 53 _

set_option exponentiation.threshold 1100 in
theorem shift_le (x : Nat) (h : x < 2 ^ 1024) : Nat.log2 x - 52 ≤ 971 := by
  by_cases h0 : x = 0
  · subst h0
    simp [Nat.log2_zero]
  · have : Nat.log2 x < 1024 := (Nat.log2_lt h0).mpr h
    omega

set_option exponentiation.threshold 1100 in
theorem nat_representable_iff (x : Nat) :
    nat_representable x = true ↔ binary64.representable (x : ℚ) := by
  unfold nat_representable
  rw [Bool.and_eq_true, decide_eq_true_iff, beq_iff_eq]
  constructor
  · rintro ⟨hlt, hmod⟩
    have hdvd : 2 ^ (Nat.log2 x - 52) ∣ x := Nat.dvd_of_mod_eq_zero hmod
    have hsh := shift_le x hlt
    refine ⟨((x / 2 ^ (Nat.log2 x - 52) : Nat) : Int), ((Nat.log2 x - 52 : Nat) : Int),
      ?_, by omega, by omega, ?_⟩
    · rw [abs_of_nonneg (Int.natCast_nonneg _)]
      exact_mod_cast significand_lt x
    · rw [zpow_natCast]
      have := Nat.div_mul_cancel hdvd
      exact_mod_cast this.symm
  · intro h
    have hlt : x < 2 ^ 1024 := by
      by_contra hcon
      exact not_representable_of_large x (not_lt.mp hcon) h
    refine ⟨hlt, ?_⟩
    by_cases h53 : x < 2 ^ 53
    · have hlog : Nat.log2 x - 52 = 0 := by
        by_cases h0 : x = 0
        · subst h0
          simp [Nat.log2_zero]
        · have : Nat.log2 x < 53 := (Nat.log2_lt h0).mpr h53
          omega
      rw [hlog, pow_zero, Nat.mod_one]
    · obtain ⟨m, e, hm, -, he, hq⟩ := h
      have hn53 : 2 ^ 53 ≤ x := not_lt.mp h53
      have hnpos : (0 : ℚ) < x := by
        have : 0 < x := lt_of_lt_of_le (pow_pos (by decide) 53) hn53
        exact_mod_cast this
      have h2e : (0 : ℚ) < 2 ^ e := zpow_pos (by norm_num) e
      have hmpos : 0 < m := by
        have : (0 : ℚ) < m := by
          by_contra hcon
          have : (m : ℚ) * 2 ^ e ≤ 0 :=
            mul_nonpos_of_nonpos_of_nonneg (not_lt.mp hcon) h2e.le
          rw [← hq] at this
          exact absurd hnpos (not_lt.mpr this)
        exact_mod_cast this
      have hm53 : m < 2 ^ 53 := lt_of_le_of_lt (le_abs_self m) hm
      have hepos : 0 ≤ e := by
        by_contra hcon
        have hle : (2 : ℚ) ^ e ≤ 2 ^ (0 : Int) :=
          zpow_le_zpow_right₀ (by norm_num) (by omega)
        rw [zpow_zero] at hle
        have h1 : (x : ℚ) ≤ m := by
          rw [hq]
          calc (m : ℚ) * 2 ^ e ≤ m * 1 := by
                apply mul_le_mul_of_nonneg_left hle
                exact_mod_cast hmpos.le
            _ = m := mul_one _
        have h2 : (x : Int) ≤ m := by exact_mod_cast h1
        have h3 : ((2 ^ 53 : Nat) : Int) ≤ x := by exact_mod_cast hn53
        have h4 : ((2 ^ 53 : Nat) : Int) = 2 ^ 53 := by norm_num
        omega
      obtain ⟨e', rfl⟩ := Int.eq_ofNat_of_zero_le hepos
      obtain ⟨m', rfl⟩ := Int.eq_ofNat_of_zero_le hmpos.le
      have hnat : x = m' * 2 ^ e' := by
        have : (x : ℚ) = ((m' * 2 ^ e' : Nat) : ℚ) := by
          rw [hq]
          push_cast
          rw [zpow_natCast]
        exact_mod_cast this
      have hm'53 : m' < 2 ^ 53 := by exact_mod_cast hm53
      have hn0 : x ≠ 0 := by
        intro h0
        rw [h0] at hnpos
        exact absurd hnpos (by norm_num)
      have hlt2 : x < 2 ^ (53 + e') := by
        rw [hnat, pow_add]
        exact Nat.mul_lt_mul_of_pos_right hm'53 (pow_pos (by decide) _)
      have hlog : Nat.log2 x < 53 + e' := (Nat.log2_lt hn0).mpr hlt2
      have hsh : Nat.log2 x - 52 ≤ e' := by omega
      exact Nat.mod_eq_zero_of_dvd
        ((pow_dvd_pow 2 hsh).trans (Dvd.intro_left m' hnat.symm))

set_option exponentiation.threshold 1100 in
theorem to_double_exact (rnd : Nat → binary64) (x : Nat) (h : nat_representable x = true) :
    (to_double rnd x).toRat? = some (x : ℚ) := by
  have h' := h
  unfold nat_representable at h'
  rw [Bool.and_eq_true, decide_eq_true_iff, beq_iff_eq] at h'
  obtain ⟨hlt, hmod⟩ := h'
  have hdvd : 2 ^ (Nat.log2 x - 52) ∣ x := Nat.dvd_of_mod_eq_zero hmod
  have hsh := shift_le x hlt
  unfold to_double
  rw [if_pos h]
  simp only [binary64.toRat?, Bool.false_eq_true, if_false, one_mul, Option.some.injEq]
  rw [Nat.mod_eq_of_lt (significand_lt x), Nat.mod_eq_of_lt (by omega)]
  have he : ((Nat.log2 x - 52 + 1074 : Nat) : Int) - 1074 = ((Nat.log2 x - 52 : Nat) : Int) := by
    omega
  rw [he, zpow_natCast]
  have := Nat.div_mul_cancel hdvd
  exact_mod_cast this

theorem to_double_exact_iff (rnd : Nat → binary64) (x : Nat) :
    (to_double rnd x).toRat? = some (x : ℚ) ↔ binary64.representable (x : ℚ) :=
  ⟨toRat_representable _ _, fun h => to_double_exact rnd x ((nat_representable_iff x).mpr h)⟩

theorem representable_of_lt (x : Nat) (h : x < 2 ^ 53) : binary64.representable (x : ℚ) := by
  refine ⟨(x : Int), 0, ?_, by norm_num, by norm_num, by simp⟩
  rw [abs_of_nonneg (Int.natCast_nonneg x)]
  exact_mod_cast h

theorem choose_60_30 : Nat.choose 60 30 = 118264581564861424 := by
  rw [Nat.choose_eq_factorial_div_factorial (by norm_num : 30 ≤ 60)]
  norm_num [Nat.factorial]

theorem choose_60_30_representable :
    2 ^ 53 ≤ Nat.choose 60 30 ∧ binary64.representable ((Nat.choose 60 30 : Nat) : ℚ) := by
  rw [choose_60_30]
  exact ⟨by norm_num, 7391536347803839, 4, by norm_num, by norm_num, by norm_num,
    by norm_num⟩

theorem mem_binomial_pairs (c : Nat) (p : Nat × Nat) :
    p ∈ binomial_pairs c ↔ p.2 ≤ p.1 ∧ p.1 ≤ c := by
  unfold binomial_pairs
  simp only [List.mem_flatMap, List.mem_range, List.mem_map]
  constructor
  · rintro ⟨n, hn, k, hk, rfl⟩
    exact ⟨by simp; omega, by simp; omega⟩
  · rintro ⟨h1, h2⟩
    exact ⟨p.1, by omega, p.2, by omega, rfl⟩

theorem binomial_lookup_cache (F : CacheFill) (c n k : Nat) (hF : F.dense c) (hk : k ≤ n)
    (hn : n ≤ c) :
    binomial_lookup F (cache_binomial_coeff F c) c n k
      = some (to_double F.rnd (Nat.choose n k)) := by
  unfold binomial_lookup cache_binomial_coeff
  rw [if_pos ⟨hk, hn⟩, List.getElem?_map, List.getElem?_range (hF.1 n k hk hn),
    Option.map_some']
  cases hfind : (binomial_pairs c).find? (fun p => F.slot p.1 p.2 == F.slot n k) with
  | none =>
    have := List.find?_eq_none.mp hfind (n, k) ((mem_binomial_pairs c (n, k)).mpr ⟨hk, hn⟩)
    simp at this
  | some p =>
    have hp := List.find?_some hfind
    have hmem := (mem_binomial_pairs c p).mp (List.mem_of_find?_eq_some hfind)
    have heq := hF.2 p.1 p.2 n k hmem.1 hmem.2 hk hn (by simpa using hp)
    simp only [heq.1, heq.2]

theorem prepare_cache (F : CacheFill) (st : Engine) :
    (prepare F st).eng.cached_binomial_coeff
      = cache_binomial_coeff F DEFAULT_CACHEBINOMIAL := by
  simp only [prepare]

theorem row_major_dense (c : Nat) : (row_major_fill c).dense c := by
  refine ⟨fun n k hk hn => ?_, fun n k n' k' hk hn hk' hn' h => ?_⟩
  · show n * (c + 1) + k < (c + 1) * (c + 1)
    have h1 : n * (c + 1) ≤ c * (c + 1) := Nat.mul_le_mul_right _ hn
    have h2 : c * (c + 1) + (c + 1) = (c + 1) * (c + 1) := by ring
    omega
  · have h' : n * (c + 1) + k = n' * (c + 1) + k' := h
    have hdiv : ∀ a b : Nat, b ≤ c → (a * (c + 1) + b) / (c + 1) = a := by
      intro a b hb
      rw [Nat.add_comm, Nat.add_mul_div_right _ _ (Nat.succ_pos c),
        Nat.div_eq_of_lt (by omega), Nat.zero_add]
    have hn_eq : n = n' := by
      have := congrArg (fun t => t / (c + 1)) h'
      simp only at this
      rwa [hdiv n k (by omega), hdiv n' k' (by omega)] at this
    subst hn_eq
    exact ⟨rfl, by omega⟩
/-! ## Lemmas: the cosine score -/

/-- C3 as stated fails: the stored smoothing coefficient is the `double` `0.4`, which
is not `2/5`, and the binning interval is the `double` `0.2`, which is not `1/5`;
neither `2/5` nor `1/5` is a binary64 value. -/
theorem gefp_engine_defaults_not_decimal :
    (gefp_engine.new 4 2).alpha_vss ≠ 2 / 5 ∧
    (gefp_engine.new 4 2).bow_dst_interval ≠ 1 / 5 ∧
    ¬ binary64.representable (2 / 5) ∧ ¬ binary64.representable (1 / 5) := by
  refine ⟨?_, ?_, ?_, ?_⟩
  · show DEFAULT_ALPHASMOOTH ≠ 2 / 5
    norm_num [DEFAULT_ALPHASMOOTH]
  · show DEFAULT_BOWDST_INTERVAL ≠ 1 / 5
    norm_num [DEFAULT_BOWDST_INTERVAL]
  · intro h
    have := representable_far (-54) (2 / 5) (1 / (5 * 2 ^ 53))
      (by rw [show (-54 - 1 : Int) = -55 by norm_num, zpow_neg]; norm_num)
      grid_two_fifths _ h
    norm_num at this
  · intro h
    have := representable_far (-55) (1 / 5) (1 / (5 * 2 ^ 54))
      (by rw [show (-55 - 1 : Int) = -56 by norm_num, zpow_neg]; norm_num)
      grid_one_fifth _ h
    norm_num at this

/-- C3 (as amended): with the optional arguments omitted the engine is word-based
(`bow_type = 0`), uses the standard TF-IDF variant (`bow_subtype = 0`) and has
`alpha_vss` equal to the `double` `0.4`, which is `3602879701896397 / 2^53`, the
binary64 value nearest to `2/5`; for every choice of the five arguments the distance
binning is `0`, the `double` `0.2`, which is `3602879701896397 / 2^54`, the binary64
value nearest to `1/5`, and `15`; and `DEFAULT_CACHEBINOMIAL` is `10000`. -/
theorem gefp_engine_defaults (krnl kbt : Int) :
    (gefp_engine.new krnl kbt).bow_type = 0 ∧
    (gefp_engine.new krnl kbt).bow_subtype = 0 ∧
    (gefp_engine.new krnl kbt).alpha_vss = 3602879701896397 / 2 ^ 53 ∧
    binary64.representable (gefp_engine.new krnl kbt).alpha_vss ∧
    (∀ r, binary64.representable r →
      |(gefp_engine.new krnl kbt).alpha_vss - 2 / 5| ≤ |r - 2 / 5|) ∧
    (∀ (bt bstype : Int) (a_vss : ℚ),
      (gefp_engine.new krnl kbt bt bstype a_vss).bow_dst_start = 0 ∧
      (gefp_engine.new krnl kbt bt bstype a_vss).bow_dst_interval
        = 3602879701896397 / 2 ^ 54 ∧
      binary64.representable (gefp_engine.new krnl kbt bt bstype a_vss).bow_dst_interval ∧
      (∀ r, binary64.representable r →
        |(gefp_engine.new krnl kbt bt bstype a_vss).bow_dst_interval - 1 / 5|
          ≤ |r - 1 / 5|) ∧
      (gefp_engine.new krnl kbt bt bstype a_vss).bow_dst_end = 15) ∧
    DEFAULT_CACHEBINOMIAL = 10000 := by
  refine ⟨rfl, rfl, ?_, DEFAULT_ALPHASMOOTH_representable, DEFAULT_ALPHASMOOTH_nearest, ?_,
    rfl⟩
  · show DEFAULT_ALPHASMOOTH = 3602879701896397 / 2 ^ 53
    norm_num [DEFAULT_ALPHASMOOTH]
  · intro bt bstype a_vss
    refine ⟨?_, ?_, DEFAULT_BOWDST_INTERVAL_representable, DEFAULT_BOWDST_INTERVAL_nearest,
      ?_⟩
    · show ((DEFAULT_BOWDST_START : Int) : ℚ) = 0
      norm_num [DEFAULT_BOWDST_START]
    · show DEFAULT_BOWDST_INTERVAL = 3602879701896397 / 2 ^ 54
      norm_num [DEFAULT_BOWDST_INTERVAL]
    · show ((DEFAULT_BOWDST_END : Int) : ℚ) = 15
      norm_num [DEFAULT_BOWDST_END]

/-- C4: for `0 ≤ kbt < 2^31` the constructor stores all five arguments unchanged:
`wgv_kernel_size = krnl`, `kbest = kbt`, `bow_type = bt`, `bow_subtype = bstype`,
`alpha_vss = a_vss`. -/
theorem gefp_engine_stores_arguments (krnl kbt bt bstype : Int) (a_vss : ℚ)
    (h0 : 0 ≤ kbt) (h1 : kbt < 2 ^ 31) :
    (gefp_engine.new krnl kbt bt bstype a_vss).wgv_kernel_size = krnl ∧
    ((gefp_engine.new krnl kbt bt bstype a_vss).kbest : Int) = kbt ∧
    (gefp_engine.new krnl kbt bt bstype a_vss).bow_type = bt ∧
    (gefp_engine.new krnl kbt bt bstype a_vss).bow_subtype = bstype ∧
    (gefp_engine.new krnl kbt bt bstype a_vss).alpha_vss = a_vss := by
  refine ⟨rfl, ?_, rfl, rfl, rfl⟩
  show (((kbt % 4294967296).toNat : Nat) : Int) = kbt
  rw [Int.toNat_of_nonneg (Int.emod_nonneg _ (by norm_num))]
  exact Int.emod_eq_of_lt h0 (by omega)

/-- C4 at `krnl = 7`, `kbt = 50`, `bt = 1`, `bstype = 2`, `a_vss = 3/10`. -/
theorem gefp_engine_stores_arguments_witness :
    (0 : Int) ≤ 50 ∧ (50 : Int) < 2 ^ 31 ∧
    (gefp_engine.new 7 50 1 2 (3 / 10)).wgv_kernel_size = 7 ∧
    ((gefp_engine.new 7 50 1 2 (3 / 10)).kbest : Int) = 50 ∧
    (gefp_engine.new 7 50 1 2 (3 / 10)).bow_type = 1 ∧
    (gefp_engine.new 7 50 1 2 (3 / 10)).bow_subtype = 2 ∧
    (gefp_engine.new 7 50 1 2 (3 / 10)).alpha_vss = 3 / 10 :=
  ⟨by decide, by decide,
    gefp_engine_stores_arguments 7 50 1 2 (3 / 10) (by decide) (by decide)⟩

/-- C9: for a negative `int` argument `kbt` (so `-2^31 ≤ kbt < 0`) the constructor
returns an engine whose unsigned `kbest` is `kbt + 2^32`, hence at least `2^31`:
a negative k-best count is neither rejected nor clamped. -/
theorem gefp_engine_negative_kbest (krnl kbt bt bstype : Int) (a_vss : ℚ)
    (hlo : -2 ^ 31 ≤ kbt) (hneg : kbt < 0) :
    ((gefp_engine.new krnl kbt bt bstype a_vss).kbest : Int) = kbt + 2 ^ 32 ∧
    2 ^ 31 ≤ (gefp_engine.new krnl kbt bt bstype a_vss).kbest := by
  have hk : (((kbt % 4294967296).toNat : Nat) : Int) = kbt + 2 ^ 32 := by
    rw [Int.toNat_of_nonneg (Int.emod_nonneg _ (by norm_num))]
    omega
  refine ⟨hk, ?_⟩
  show 2 ^ 31 ≤ (kbt % 4294967296).toNat
  omega

/-- C9 at `kbt = -1`: `kbest` is `4294967295`. -/
theorem gefp_engine_negative_kbest_witness :
    (-2 ^ 31 : Int) ≤ -1 ∧ (-1 : Int) < 0 ∧
    ((gefp_engine.new 3 (-1) 0 0 (2 / 5)).kbest : Int) = -1 + 2 ^ 32 ∧
    2 ^ 31 ≤ (gefp_engine.new 3 (-1) 0 0 (2 / 5)).kbest :=
  ⟨by decide, by decide,
    gefp_engine_negative_kbest 3 (-1) 0 0 (2 / 5) (by decide) (by decide)⟩

/-- C5: for `no ≥ 0` the constructor `scan_bow(no)` returns a signature whose
`w`, `w_x` and `w_y` all have length exactly `no`. -/
theorem scan_bow_parallel_lengths (no : Int) (h : 0 ≤ no) :
    ∃ s, scan_bow.new no = some s ∧
      (s.w.length : Int) = no ∧ (s.w_x.length : Int) = no ∧ (s.w_y.length : Int) = no ∧
      s.w.length = s.w_x.length ∧ s.w_x.length = s.w_y.length := by
  refine ⟨_, if_neg (not_lt.mpr h), ?_, ?_, ?_, ?_, ?_⟩ <;>
    simp [List.length_replicate, Int.toNat_of_nonneg h]

/-- C5 at `no = 4`. -/
theorem scan_bow_parallel_lengths_witness :
    (0 : Int) ≤ 4 ∧ ∃ s, scan_bow.new 4 = some s ∧
      (s.w.length : Int) = 4 ∧ (s.w_x.length : Int) = 4 ∧ (s.w_y.length : Int) = 4 ∧
      s.w.length = s.w_x.length ∧ s.w_x.length = s.w_y.length :=
  ⟨by decide, scan_bow_parallel_lengths 4 (by decide)⟩

/-- C10: a newly constructed `tf_idf_db()` has both counters zero and every
per-document vector empty, so each vector has as many entries as the record counts
documents. -/
theorem tf_idf_db_new_empty :
    tf_idf_db.new.num_doc_containing_the_word = 0 ∧ tf_idf_db.new.corpus_size = 0 ∧
    tf_idf_db.new.word_order = [] ∧ tf_idf_db.new.doc_id = [] ∧
    tf_idf_db.new.term_count_unnormalized = [] ∧ tf_idf_db.new.tf_idf_doc_normed = [] ∧
    tf_idf_db.new.ntf_idf_doc_normed = [] ∧ tf_idf_db.new.wf_idf_doc_normed = [] ∧
    tf_idf_db.new.num_words = [] ∧ tf_idf_db.new.term_count = [] ∧
    (tf_idf_db.new.word_order.length : Int) = tf_idf_db.new.num_doc_containing_the_word ∧
    (tf_idf_db.new.doc_id.length : Int) = tf_idf_db.new.num_doc_containing_the_word ∧
    (tf_idf_db.new.term_count_unnormalized.length : Int)
      = tf_idf_db.new.num_doc_containing_the_word ∧
    (tf_idf_db.new.tf_idf_doc_normed.length : Int)
      = tf_idf_db.new.num_doc_containing_the_word ∧
    (tf_idf_db.new.ntf_idf_doc_normed.length : Int)
      = tf_idf_db.new.num_doc_containing_the_word ∧
    (tf_idf_db.new.wf_idf_doc_normed.length : Int)
      = tf_idf_db.new.num_doc_containing_the_word ∧
    (tf_idf_db.new.num_words.length : Int) = tf_idf_db.new.num_doc_containing_the_word ∧
    (tf_idf_db.new.term_count.length : Int) = tf_idf_db.new.num_doc_containing_the_word := by
  refine ⟨rfl, rfl, rfl, rfl, rfl, rfl, rfl, rfl, rfl, rfl, ?_, ?_, ?_, ?_, ?_, ?_, ?_, ?_⟩ <;>
    rfl

/-! ## Theorems about the declared operations -/

/-- C1: for every k-best size and every query in mode 1 or 2 on a prepared engine,
`query` succeeds and the result it exposes has length `min(kbest, number of scored
candidates)`, consists of scored candidates, and is ranked by `isBettermatched`:
descending score, and ascending scan index among equal scores. -/
theorem query_scoreoutput_ranked (P : Scorers) (st : Engine) (dtype : Int)
    (query_v : List Int) (hb : st.index_built = true) (hd : dtype = 1 ∨ dtype = 2) :
    ∃ out, (query P st dtype query_v).1 = Except.ok out ∧
      out.length = min st.eng.kbest (scored_candidates P st.eng dtype query_v).length ∧
      out.Subperm (scored_candidates P st.eng dtype query_v) ∧
      out.Pairwise (fun x y => isBettermatched x y = true) ∧
      out.Pairwise (fun x y => y.1 < x.1 ∨ (x.1 = y.1 ∧ x.2 < y.2)) := by
  obtain ⟨h1, h2⟩ := query_scoreset P st dtype query_v hb hd
  have hr := topk_select_ranked st.eng.kbest _ (scored_candidates_nodup P st.eng dtype query_v)
  refine ⟨_, h1, ?_, ?_, ?_, ?_⟩
  · rw [h2]
    exact topk_select_length_eq _ _
  · rw [h2]
    exact topk_select_subperm _ _
  · rw [h2]
    exact hr
  · rw [h2]
    exact hr.imp (fun {x y} h => (isBettermatched_iff x y).mp h)

/-- C1 at the example engine: a bag-of-words query `[5, 12, 30]`. -/
theorem query_scoreoutput_ranked_witness :
    example_engine.index_built = true ∧ ((1 : Int) = 1 ∨ (1 : Int) = 2) ∧
    ∃ out, (query example_scorers example_engine 1 [5, 12, 30]).1 = Except.ok out ∧
      out.length = min example_engine.eng.kbest
        (scored_candidates example_scorers example_engine.eng 1 [5, 12, 30]).length ∧
      out.Subperm (scored_candidates example_scorers example_engine.eng 1 [5, 12, 30]) ∧
      out.Pairwise (fun x y => isBettermatched x y = true) ∧
      out.Pairwise (fun x y => y.1 < x.1 ∨ (x.1 = y.1 ∧ x.2 < y.2)) :=
  ⟨rfl, Or.inl rfl,
    query_scoreoutput_ranked example_scorers example_engine 1 [5, 12, 30] rfl (Or.inl rfl)⟩

/-- C2: an insertion whose three sequences do not all have the same length fails
with `ShapeMismatch`, whatever the engine state, and leaves the engine, hence the
number of scans in the corpus, as it was. -/
theorem insert_wordscan_shape_mismatch (st : Engine) (wordscan : List Int)
    (xpos ypos : List ℚ)
    (h : ¬ (wordscan.length = xpos.length ∧ xpos.length = ypos.length)) :
    (insert_wordscan st wordscan xpos ypos).1 = Except.error EngineError.ShapeMismatch ∧
    (insert_wordscan st wordscan xpos ypos).2.eng.laserscan_bow.length
      = st.eng.laserscan_bow.length ∧
    (insert_wordscan st wordscan xpos ypos).2 = st := by
  unfold insert_wordscan
  rw [if_pos h]
  exact ⟨rfl, rfl, rfl⟩

/-- C2 at the spec's example: a word sequence of length 3 with `xpos` of length 2,
inserted into a fresh engine. -/
theorem insert_wordscan_shape_mismatch_witness :
    ¬ (([5, 12, 30] : List Int).length = ([0, 1] : List ℚ).length ∧
        ([0, 1] : List ℚ).length = ([0, 1, 2] : List ℚ).length) ∧
    (insert_wordscan ⟨gefp_engine.new 4 2, false⟩ [5, 12, 30] [0, 1] [0, 1, 2]).1
      = Except.error EngineError.ShapeMismatch ∧
    (insert_wordscan ⟨gefp_engine.new 4 2, false⟩ [5, 12, 30] [0, 1]
        [0, 1, 2]).2.eng.laserscan_bow.length
      = (gefp_engine.new 4 2).laserscan_bow.length ∧
    (insert_wordscan ⟨gefp_engine.new 4 2, false⟩ [5, 12, 30] [0, 1] [0, 1, 2]).2
      = ⟨gefp_engine.new 4 2, false⟩ :=
  ⟨by decide,
    insert_wordscan_shape_mismatch ⟨gefp_engine.new 4 2, false⟩ [5, 12, 30] [0, 1] [0, 1, 2]
      (by decide)⟩

/-- C6 as stated fails at `(n, k) = (10000, 5000)`: `C(10000, 5000)` exceeds `2^1024`,
so no `double` equals it, and the value a prepared engine serves there is not the
exact coefficient. -/
theorem binomial_cache_not_exact :
    (¬ ∃ d : binary64, d.toRat? = some ((Nat.choose 10000 5000 : Nat) : ℚ)) ∧
    ∃ d,
      binomial_lookup (row_major_fill DEFAULT_CACHEBINOMIAL)
          (prepare (row_major_fill DEFAULT_CACHEBINOMIAL)
            ⟨gefp_engine.new 4 2, false⟩).eng.cached_binomial_coeff
          DEFAULT_CACHEBINOMIAL 10000 5000 = some d ∧
      d.toRat? ≠ some ((Nat.choose 10000 5000 : Nat) : ℚ) := by
  have hno : ∀ d : binary64, d.toRat? ≠ some ((Nat.choose 10000 5000 : Nat) : ℚ) :=
    fun d h => not_representable_of_large _ choose_10000_5000_large
      (toRat_representable d _ h)
  refine ⟨fun ⟨d, h⟩ => hno d h,
    to_double (row_major_fill DEFAULT_CACHEBINOMIAL).rnd (Nat.choose 10000 5000), ?_, hno _⟩
  rw [prepare_cache]
  exact binomial_lookup_cache _ _ 10000 5000 (row_major_dense _) (by decide) (by decide)

/-- C6 (as amended): after `prepare()`, for `0 ≤ k ≤ n ≤ DEFAULT_CACHEBINOMIAL` the
binomial cache serves a `double`, and that `double` is the exact `C(n, k)` if and
only if `C(n, k)` is a binary64 value: always when `C(n, k) < 2^53`, never when
`C(n, k) ≥ 2^1024`. This holds for every layout of the table that gives each pair a
slot of its own and for every rounding of the other coefficients. -/
theorem binomial_cache_exact_iff_representable (F : CacheFill) (st : Engine) (n k : Nat)
    (hF : F.dense DEFAULT_CACHEBINOMIAL) (hk : k ≤ n) (hn : n ≤ DEFAULT_CACHEBINOMIAL) :
    ∃ d,
      binomial_lookup F (prepare F st).eng.cached_binomial_coeff DEFAULT_CACHEBINOMIAL n k
        = some d ∧
      (d.toRat? = some ((Nat.choose n k : Nat) : ℚ) ↔
        binary64.representable ((Nat.choose n k : Nat) : ℚ)) ∧
      (Nat.choose n k < 2 ^ 53 → d.toRat? = some ((Nat.choose n k : Nat) : ℚ)) ∧
      (2 ^ 1024 ≤ Nat.choose n k → d.toRat? ≠ some ((Nat.choose n k : Nat) : ℚ)) := by
  refine ⟨to_double F.rnd (Nat.choose n k), ?_, to_double_exact_iff _ _, fun h => ?_,
    fun h hd => ?_⟩
  · rw [prepare_cache]
    exact binomial_lookup_cache F _ n k hF hk hn
  · exact (to_double_exact_iff _ _).mpr (representable_of_lt _ h)
  · exact not_representable_of_large _ h (toRat_representable _ _ hd)

/-- C6 (as amended) at `(n, k) = (60, 30)` with the row-major layout; `C(60, 30)` lies
above `2^53` and is a binary64 value. -/
theorem binomial_cache_exact_iff_representable_witness :
    (row_major_fill DEFAULT_CACHEBINOMIAL).dense DEFAULT_CACHEBINOMIAL ∧
    30 ≤ 60 ∧ 60 ≤ DEFAULT_CACHEBINOMIAL ∧
    2 ^ 53 ≤ Nat.choose 60 30 ∧ binary64.representable ((Nat.choose 60 30 : Nat) : ℚ) ∧
    ∃ d,
      binomial_lookup (row_major_fill DEFAULT_CACHEBINOMIAL)
          (prepare (row_major_fill DEFAULT_CACHEBINOMIAL)
            ⟨gefp_engine.new 4 2, false⟩).eng.cached_binomial_coeff
          DEFAULT_CACHEBINOMIAL 60 30 = some d ∧
      (d.toRat? = some ((Nat.choose 60 30 : Nat) : ℚ) ↔
        binary64.representable ((Nat.choose 60 30 : Nat) : ℚ)) ∧
      (Nat.choose 60 30 < 2 ^ 53 → d.toRat? = some ((Nat.choose 60 30 : Nat) : ℚ)) ∧
      (2 ^ 1024 ≤ Nat.choose 60 30 → d.toRat? ≠ some ((Nat.choose 60 30 : Nat) : ℚ)) :=
  ⟨row_major_dense _, by decide, by decide, choose_60_30_representable.1,
    choose_60_30_representable.2,
    binomial_cache_exact_iff_representable (row_major_fill DEFAULT_CACHEBINOMIAL)
      ⟨gefp_engine.new 4 2, false⟩ 60 30 (row_major_dense _) (by decide) (by decide)⟩

/-- C7: a query in geometric-phrase mode (`dtype = 2`) on a prepared engine succeeds,
and every entry of the returned score set names a scan of the corpus whose weak-match
flag is unset (`mtchgfp_rc_weak_match[i] = 0`) and which the verification pass did
not flag. -/
theorem matching_gfp_excludes_weak (P : Scorers) (st : Engine) (query_v : List Int)
    (hb : st.index_built = true) :
    (query P st 2 query_v).1 = Except.ok (query P st 2 query_v).2.eng.scoreset ∧
    ∀ x ∈ (query P st 2 query_v).2.eng.scoreset, ∃ i : Nat,
      x.2 = (i : Int) ∧ i < st.eng.laserscan_bow.length ∧
      (query P st 2 query_v).2.eng.mtchgfp_rc_weak_match[i]? = some 0 ∧
      P.weak_match st.eng query_v i = false := by
  obtain ⟨h1, h2⟩ := query_scoreset P st 2 query_v hb (Or.inr rfl)
  refine ⟨h1, ?_⟩
  intro x hx
  rw [h2] at hx
  have hx2 := (topk_select_subperm _ _).subset hx
  have hflags : (query P st 2 query_v).2.eng.mtchgfp_rc_weak_match
      = weak_match_flags P st.eng query_v := by
    simp [query, hb, matching_gfp]
  simp only [scored_candidates, show ¬ ((2 : Int) = 1) by decide, if_false, if_true,
    gfp_candidates, List.mem_map, List.mem_filter, List.mem_range, Bool.and_eq_true,
    beq_iff_eq] at hx2
  obtain ⟨i, ⟨hi, hused, hweak⟩, rfl⟩ := hx2
  refine ⟨i, rfl, hi, ?_, ?_⟩
  · rw [hflags]
    have hlen : i < (weak_match_flags P st.eng query_v).length := by
      simp [weak_match_flags, hi]
    rw [List.getD_eq_getElem?_getD, List.getElem?_eq_getElem hlen] at hweak
    rw [List.getElem?_eq_getElem hlen]
    simpa using hweak
  · have hlen : i < (weak_match_flags P st.eng query_v).length := by
      simp [weak_match_flags, hi]
    rw [List.getD_eq_getElem?_getD, List.getElem?_eq_getElem hlen] at hweak
    simp only [Option.getD_some, weak_match_flags, List.getElem_map, List.getElem_range,
      hused, Bool.true_and] at hweak
    by_contra hw
    rw [Bool.not_eq_false] at hw
    rw [hw] at hweak
    simp at hweak

/-- C7 at the example engine, where the verification pass flags scan 0: the query
`[5, 12, 30]` in mode 2 returns scan 1 only. -/
theorem matching_gfp_excludes_weak_witness :
    example_engine.index_built = true ∧
    (query example_scorers example_engine 2 [5, 12, 30]).1
      = Except.ok (query example_scorers example_engine 2 [5, 12, 30]).2.eng.scoreset ∧
    ∀ x ∈ (query example_scorers example_engine 2 [5, 12, 30]).2.eng.scoreset, ∃ i : Nat,
      x.2 = (i : Int) ∧ i < example_engine.eng.laserscan_bow.length ∧
      (query example_scorers example_engine 2
        [5, 12, 30]).2.eng.mtchgfp_rc_weak_match[i]? = some 0 ∧
      example_scorers.weak_match example_engine.eng [5, 12, 30] i = false :=
  ⟨rfl, matching_gfp_excludes_weak example_scorers example_engine [5, 12, 30] rfl⟩

end GFP
